import Mathlib

/-!
Shallow embedding of the ArbitrageAI agents (analyzer_agent.py,
executor_agent.py, scanner_agent.py) and proofs about their quantitative
core: the MeTTa reasoning engine, the Kelly position sizer, the policy
compliance filter and the opportunity detector.

Python floats are modelled as exact rationals (ℚ); the verified claims
concern comparisons and branch structure, which agree with float evaluation
at the concrete points used.  Strings emitted into the reasoning audit
trail are modelled by the inductive `ReasoningEntry`, one constructor per
f-string in the source, carrying the interpolated arguments.  Wall-clock
values (trade ids, timestamps) and the simulated Vincent execution are
passed in as parameters.
-/

namespace Polytrage

/-- `pat` is a leading segment of `l`. -/
def charsLead : List Char → List Char → Bool
  | [], _ => true
  | _ :: _, [] => false
  | a :: as, b :: bs => a == b && charsLead as bs

/-- `pat` occurs as a contiguous segment of `l`. -/
def charsSeg (pat : List Char) : List Char → Bool
  | [] => charsLead pat []
  | b :: bs => charsLead pat (b :: bs) || charsSeg pat bs

/-- Substring containment, Python's `sub in s`. -/
def strContains (s sub : String) : Bool :=
  charsSeg sub.toList s.toList

/-! ## Analyzer agent (analyzer_agent.py) -/

/-- The fields of the opportunity dict that `analyze_opportunity` reads. -/
structure Opportunity where
  market : String
  profit_margin : ℚ
  confidence : ℚ

/-- One entry of `historical_performance` in the knowledge base. -/
structure HistPerf where
  accuracy : ℚ
  avg_margin : ℚ
deriving DecidableEq

/-- `knowledge_base["market_patterns"]`. -/
structure MarketPatterns where
  crypto_volatility : ℚ
  prediction_market_accuracy : ℚ
  volume_confidence_threshold : ℚ

/-- `knowledge_base["risk_parameters"]`. -/
structure RiskParameters where
  max_profit_margin : ℚ
  min_confidence : ℚ
  max_risk_score : ℚ

/-- The static knowledge base built in `MeTTaReasoning.__init__`.
`historical_performance` is a keyed table (Python dict), modelled as an
association list. -/
structure KnowledgeBase where
  market_patterns : MarketPatterns
  risk_parameters : RiskParameters
  historical_performance : List (String × HistPerf)

/-- The literal knowledge base from `MeTTaReasoning.__init__`. -/
def knowledge_base : KnowledgeBase where
  market_patterns :=
    { crypto_volatility := 8/10
      prediction_market_accuracy := 7/10
      volume_confidence_threshold := 100000 }
  risk_parameters :=
    { max_profit_margin := 15
      min_confidence := 60
      max_risk_score := 70 }
  historical_performance :=
    [("btc_predictions", { accuracy := 72/100, avg_margin := 42/10 }),
     ("eth_predictions", { accuracy := 68/100, avg_margin := 38/10 })]

/-- The reasoning strings appended by `analyze_opportunity`, one constructor
per f-string of the source, carrying the interpolated values. -/
inductive ReasoningEntry where
  | highProfitMargin (pm : ℚ)      -- "High profit margin ... pricing error"
  | strongProfitMargin (pm : ℚ)    -- "Strong profit margin ... detected"
  | moderateProfitMargin (pm : ℚ)  -- "Moderate profit margin ..."
  | lowConfidence (c : ℚ)          -- "Low confidence ... in opportunity"
  | highConfidence (c : ℚ)         -- "High confidence ... in opportunity"
  | strongHistory (asset : String)    -- "Strong historical accuracy for ..."
  | moderateHistory (asset : String)  -- "Moderate historical accuracy for ..."
  | highVolatility                 -- "High crypto market volatility increases risk"
  | recommendationIs (rec : String)   -- "Recommendation: {recommendation}"
deriving DecidableEq

/-- `MeTTaReasoning._generate_recommendation`. -/
def generate_recommendation (profit_margin confidence risk_score : ℚ) : String :=
  if profit_margin > 5 ∧ confidence > 70 ∧
      risk_score < knowledge_base.risk_parameters.max_risk_score then
    "EXECUTE"
  else if profit_margin > 3 ∧ confidence > 60 ∧ risk_score < 80 then
    "MONITOR"
  else
    "SKIP"

/-- `MeTTaReasoning._calculate_kelly_bet_size`. -/
def calculate_kelly_bet_size (profit_margin confidence risk_score : ℚ) : ℚ :=
  let win_probability := confidence / 100
  let odds := 1 + profit_margin / 100
  let b := odds - 1
  let p := win_probability
  let q := 1 - p
  if b ≤ 0 ∨ p ≤ 0 then 0
  else
    let kelly_fraction := (b * p - q) / b
    let risk_adjustment := max (1/10) (1 - risk_score / 100)
    let adjusted_fraction := kelly_fraction * risk_adjustment
    min (max adjusted_fraction 0) (1/10)

/-- Rules 1–4 of `MeTTaReasoning.analyze_opportunity`: the risk-score
accumulation together with the reasoning entries appended so far, in
evaluation order. -/
def rules1to4 (market : String) (profit_margin confidence : ℚ) :
    ℚ × List ReasoningEntry :=
  -- Rule 1: Profit margin analysis
  let s1 : ℚ × List ReasoningEntry :=
    if profit_margin > knowledge_base.risk_parameters.max_profit_margin then
      (0 + 30, [.highProfitMargin profit_margin])
    else if profit_margin > 8 then
      (0 + 10, [.strongProfitMargin profit_margin])
    else
      (0, [.moderateProfitMargin profit_margin])
  -- Rule 2: Confidence assessment
  let s2 : ℚ × List ReasoningEntry :=
    if confidence < knowledge_base.risk_parameters.min_confidence then
      (s1.1 + 25, s1.2 ++ [.lowConfidence confidence])
    else if confidence > 85 then
      (s1.1 - 10, s1.2 ++ [.highConfidence confidence])
    else s1
  -- Rule 3: Asset-specific historical performance.  The membership test is
  -- on the key `asset_type` ("btc"/"eth"), while the body indexes
  -- `f"{asset_type}_predictions"`; the none branch of that inner indexing
  -- models Python's KeyError path, unreachable because the outer test fails.
  let asset_type :=
    if strContains market.toLower "bitcoin" || strContains market.toLower "btc"
    then "btc" else "eth"
  let s3 : ℚ × List ReasoningEntry :=
    if (knowledge_base.historical_performance.lookup asset_type).isSome then
      match knowledge_base.historical_performance.lookup
          (asset_type ++ "_predictions") with
      | some hist_perf =>
        if hist_perf.accuracy > 7/10 then
          (s2.1 - 5, s2.2 ++ [.strongHistory asset_type])
        else
          (s2.1 + 10, s2.2 ++ [.moderateHistory asset_type])
      | none => s2
    else s2
  -- Rule 4: Market volatility consideration
  let volatility := knowledge_base.market_patterns.crypto_volatility
  if volatility > 7/10 then (s3.1 + 15, s3.2 ++ [.highVolatility]) else s3

/-- The `OpportunityAnalysis` dataclass. -/
structure OpportunityAnalysis where
  market : String
  profit_margin : ℚ
  confidence : ℚ
  risk_score : ℚ
  recommendation : String
  bet_size : ℚ
  reasoning : List ReasoningEntry
deriving DecidableEq

/-- `MeTTaReasoning.analyze_opportunity`: rules 1–4 accumulate the risk
score and audit trail, rule 5 appends the recommendation entry, rule 6
computes the bet size (appending nothing). -/
def analyze_opportunity (opp : Opportunity) : OpportunityAnalysis :=
  let s := rules1to4 opp.market opp.profit_margin opp.confidence
  let recommendation :=
    generate_recommendation opp.profit_margin opp.confidence s.1
  { market := opp.market
    profit_margin := opp.profit_margin
    confidence := opp.confidence
    risk_score := s.1
    recommendation := recommendation
    bet_size := calculate_kelly_bet_size opp.profit_margin opp.confidence s.1
    reasoning := s.2 ++ [.recommendationIs recommendation] }

/-- Closed form of rule 1's risk contribution (for the characterization of
`rules1to4`). -/
def rule1Risk (pm : ℚ) : ℚ :=
  if pm > 15 then 30 else if pm > 8 then 10 else 0

/-- Closed form of rule 1's reasoning entry. -/
def rule1Entry (pm : ℚ) : ReasoningEntry :=
  if pm > 15 then .highProfitMargin pm
  else if pm > 8 then .strongProfitMargin pm
  else .moderateProfitMargin pm

/-- Closed form of rule 2's risk contribution. -/
def rule2Risk (conf : ℚ) : ℚ :=
  if conf < 60 then 25 else if conf > 85 then -10 else 0

/-- Closed form of rule 2's reasoning entries. -/
def rule2Entries (conf : ℚ) : List ReasoningEntry :=
  if conf < 60 then [.lowConfidence conf]
  else if conf > 85 then [.highConfidence conf]
  else []

/-! ## Executor agent (executor_agent.py) -/

/-- The fields of the recommendation dict read by `VincentIntegration`. -/
structure Recommendation where
  market : String
  bet_size : ℚ
  profit_margin : ℚ
  confidence : ℚ
  risk_score : ℚ

/-- A user policy dict.  Fields accessed in the source via `.get(key,
default)` are `Option`s (absent key allowed); `bankroll` and
`max_bet_size` are indexed directly and hence required. -/
structure UserPolicy where
  bankroll : ℚ
  max_bet_size : ℚ
  min_bet_size : Option ℚ
  min_profit_margin : Option ℚ
  min_confidence : Option ℚ
  max_risk_score : Option ℚ
  approved_markets : Option (List String)

/-- `VincentIntegration._check_policy_compliance`. -/
def check_policy_compliance (r : Recommendation) (p : UserPolicy) : Bool :=
  if r.profit_margin < p.min_profit_margin.getD 3 then false
  else if r.confidence < p.min_confidence.getD 60 then false
  else if r.risk_score > p.max_risk_score.getD 70 then false
  else
    let approved_markets := p.approved_markets.getD []
    if !approved_markets.isEmpty &&
        !(approved_markets.any fun market => strContains r.market market) then
      false
    else true

/-- The `TradeExecution` dataclass (timestamp omitted: wall-clock only). -/
structure TradeExecution where
  trade_id : String
  market : String
  bet_size : ℚ
  expected_profit : ℚ
  tx_hash : Option String
  status : String
  error_message : Option String := none
deriving DecidableEq

/-- Python truthiness of an `Optional[str]` (`None` and `""` are falsy). -/
def truthy : Option String → Bool
  | none => false
  | some s => !s.isEmpty

/-- `VincentIntegration.execute_trade`.  `trade_id` stands for the
wall-clock-derived id; `vincentOutcome` is the result of the awaited
`_execute_via_vincent` call: either a raised exception message (caught by
the surrounding `except`) or the returned optional transaction hash. -/
def execute_trade (r : Recommendation) (p : UserPolicy) (trade_id : String)
    (vincentOutcome : Except String (Option String)) : TradeExecution :=
  if !(check_policy_compliance r p) then
    { trade_id := trade_id, market := r.market, bet_size := 0,
      expected_profit := 0, tx_hash := none, status := "failed",
      error_message := some "Policy compliance check failed" }
  else
    let actual_bet_size := min (r.bet_size * p.bankroll) p.max_bet_size
    if actual_bet_size < p.min_bet_size.getD 10 then
      { trade_id := trade_id, market := r.market, bet_size := 0,
        expected_profit := 0, tx_hash := none, status := "failed",
        error_message := some "Bet size below minimum threshold" }
    else
      match vincentOutcome with
      | .error e =>
        { trade_id := trade_id, market := r.market, bet_size := 0,
          expected_profit := 0, tx_hash := none, status := "failed",
          error_message := some e }
      | .ok tx_hash =>
        { trade_id := trade_id, market := r.market, bet_size := actual_bet_size,
          expected_profit := actual_bet_size * (r.profit_margin / 100),
          tx_hash := tx_hash,
          status := if truthy tx_hash then "executed" else "failed" }

/-! ## Scanner agent (scanner_agent.py) -/

/-- A Polymarket market descriptor as returned by `fetch_polymarket_data`. -/
structure Market where
  id : String
  question : String
  outcome : String
  odds : ℚ
  volume : ℚ
  target_price : ℚ
  asset : String

/-- A normalized Pyth price entry as built by `fetch_pyth_prices`. -/
structure PriceInfo where
  price : ℚ
  confidence : ℚ
  publish_time : ℤ

/-- The `OpportunityData` dataclass (the `detected_at` wall-clock field is
omitted). -/
structure OpportunityData where
  market : String
  market_odds : ℚ
  oracle_price : ℚ
  implied_price : ℚ
  profit_margin : ℚ
  confidence : ℚ
deriving DecidableEq

/-- `ScannerAgent.calculate_confidence`. -/
def calculate_confidence (market : Market) (price_data : PriceInfo)
    (profit_margin : ℚ) : ℚ :=
  let confidence : ℚ := 50
  let confidence :=
    if market.volume > 1000000 then confidence + 20
    else if market.volume > 100000 then confidence + 10
    else confidence
  let confidence :=
    if profit_margin > 10 then confidence + 30
    else if profit_margin > 5 then confidence + 20
    else if profit_margin > 3 then confidence + 10
    else confidence
  let price_conf_ratio := price_data.confidence / price_data.price
  let confidence :=
    if price_conf_ratio < 1/1000 then confidence + 15
    else if price_conf_ratio < 1/100 then confidence + 10
    else if price_conf_ratio > 1/20 then confidence - 10
    else confidence
  min (max confidence 0) 100

/-- `ScannerAgent.analyze_market`: `none` when the market's asset has no
oracle price. -/
def analyze_market (market : Market) (prices : List (String × PriceInfo)) :
    Option OpportunityData :=
  match prices.lookup market.asset with
  | none => none
  | some price_data =>
    let oracle_price := price_data.price
    let market_odds := market.odds
    let target_price := market.target_price
    let implied_probability := market_odds / 100
    let time_factor : ℚ := 9/10
    let implied_price := target_price * (1 - implied_probability * time_factor)
    let profit_margin := ((oracle_price - implied_price) / implied_price) * 100
    let confidence := calculate_confidence market price_data profit_margin
    some { market := market.question
           market_odds := market_odds
           oracle_price := oracle_price
           implied_price := implied_price
           profit_margin := profit_margin
           confidence := confidence }

/-! ## Helper lemmas -/

/-- Characterization of rules 1–4: rule 3 never changes anything (its guard
tests the keys "btc"/"eth" against a table keyed "btc_predictions"/
"eth_predictions") and rule 4 always adds 15, so the outcome is the sum of
the rule-1 and rule-2 contributions plus 15, with exactly their entries and
the volatility entry in the audit trail. -/
theorem rules1to4_eq (market : String) (pm conf : ℚ) :
    rules1to4 market pm conf =
      (rule1Risk pm + rule2Risk conf + 15,
        rule1Entry pm :: (rule2Entries conf ++ [.highVolatility])) := by
  unfold rules1to4 rule1Risk rule1Entry rule2Risk rule2Entries
  cases hb : (strContains market.toLower "bitcoin" ||
      strContains market.toLower "btc") <;>
    simp only [hb, Bool.false_eq_true, if_true, if_false, knowledge_base] <;>
    norm_num <;>
    split_ifs <;>
    simp_all <;>
    ring

/-! ## Claim theorems -/

/-- C1: for every input triple (profit_margin, confidence, risk_score) the
bet-size fraction returned by `_calculate_kelly_bet_size` lies in the
closed interval [0, 0.10], including the negative-Kelly case (floored at
0) and arbitrarily large risk scores. -/
theorem kelly_bet_size_bounded (pm conf rs : ℚ) :
    0 ≤ calculate_kelly_bet_size pm conf rs ∧
    calculate_kelly_bet_size pm conf rs ≤ 1/10 := by
  unfold calculate_kelly_bet_size
  simp only []
  split_ifs with h
  · norm_num
  · exact ⟨le_min (le_max_right _ _) (by norm_num), min_le_right _ _⟩

/-- Witness for C1 at the concrete input (6, 75, 15). -/
theorem kelly_bet_size_bounded_witness :
    0 ≤ calculate_kelly_bet_size 6 75 15 ∧
    calculate_kelly_bet_size 6 75 15 ≤ 1/10 :=
  kelly_bet_size_bounded 6 75 15

/-- C2: `_generate_recommendation` returns EXECUTE exactly when
profit_margin > 5, confidence > 70 and risk_score < 70 (the configured
max_risk_score); otherwise MONITOR exactly when profit_margin > 3,
confidence > 60 and risk_score < 80; otherwise SKIP. -/
theorem generate_recommendation_cases (pm conf rs : ℚ) :
    (generate_recommendation pm conf rs = "EXECUTE" ↔
      pm > 5 ∧ conf > 70 ∧ rs < 70) ∧
    (generate_recommendation pm conf rs = "MONITOR" ↔
      ¬(pm > 5 ∧ conf > 70 ∧ rs < 70) ∧ (pm > 3 ∧ conf > 60 ∧ rs < 80)) ∧
    (generate_recommendation pm conf rs = "SKIP" ↔
      ¬(pm > 5 ∧ conf > 70 ∧ rs < 70) ∧ ¬(pm > 3 ∧ conf > 60 ∧ rs < 80)) := by
  unfold generate_recommendation knowledge_base
  split_ifs with h1 h2 <;> simp_all

/-- Witness for C2 at the concrete input (6, 75, 15), which is EXECUTE. -/
theorem generate_recommendation_cases_witness :
    generate_recommendation 6 75 15 = "EXECUTE" :=
  (generate_recommendation_cases 6 75 15).1.mpr (by norm_num)

/-- C6: with profit_margin ≤ 0 or confidence ≤ 0 the guard `b <= 0 or
p <= 0` fires and `_calculate_kelly_bet_size` returns exactly 0, so the
Kelly quotient is never formed in the degenerate case. -/
theorem kelly_guard_zero (pm conf rs : ℚ) (h : pm ≤ 0 ∨ conf ≤ 0) :
    calculate_kelly_bet_size pm conf rs = 0 := by
  unfold calculate_kelly_bet_size
  simp only []
  rw [if_pos]
  rcases h with h | h
  · left; linarith
  · right; linarith

/-- Witness for C6 at the concrete input (−1, 50, 0). -/
theorem kelly_guard_zero_witness : calculate_kelly_bet_size (-1) 50 0 = 0 :=
  kelly_guard_zero (-1) 50 0 (Or.inl (by norm_num))

/-- C10: for every opportunity the risk score produced by
`analyze_opportunity` is the rule-1 contribution (0, 10 or 30) plus the
rule-2 contribution (−10, 0 or 25) plus the constant 15 of the volatility
rule — the asset-history rule contributes nothing — and therefore lies in
[5, 70]; in particular it never reaches 80 and meets the EXECUTE ceiling
70 only at exactly 70. -/
theorem risk_score_invariant (opp : Opportunity) :
    (analyze_opportunity opp).risk_score =
      rule1Risk opp.profit_margin + rule2Risk opp.confidence + 15 ∧
    5 ≤ (analyze_opportunity opp).risk_score ∧
    (analyze_opportunity opp).risk_score ≤ 70 := by
  unfold analyze_opportunity
  simp only [rules1to4_eq]
  unfold rule1Risk rule2Risk
  split_ifs <;> norm_num

/-- Witness for C10 at the concrete opportunity ("btc", 6, 75). -/
theorem risk_score_invariant_witness :
    5 ≤ (analyze_opportunity ⟨"btc", 6, 75⟩).risk_score ∧
    (analyze_opportunity ⟨"btc", 6, 75⟩).risk_score ≤ 70 :=
  ⟨(risk_score_invariant ⟨"btc", 6, 75⟩).2.1,
   (risk_score_invariant ⟨"btc", 6, 75⟩).2.2⟩

/-- C3 (code evaluation at the failing input): for the opportunity
("btc", 6.2, 85) the asset-history rule is claimed to subtract 5 (BTC,
accuracy 0.72 > 0.7), which would give risk 10; the code instead leaves
the risk at 15 and appends no historical-accuracy entry, because the
membership guard tests the key "btc" against a table whose keys are
"btc_predictions" and "eth_predictions". -/
theorem asset_history_rule_never_fires :
    (analyze_opportunity ⟨"btc", 31/5, 85⟩).risk_score = 15 ∧
    (analyze_opportunity ⟨"btc", 31/5, 85⟩).reasoning =
      [.moderateProfitMargin (31/5), .highVolatility,
       .recommendationIs "EXECUTE"] := by
  unfold analyze_opportunity
  simp only [rules1to4_eq]
  norm_num [rule1Risk, rule2Risk, rule1Entry, rule2Entries,
    generate_recommendation, knowledge_base]

/-- C4 (amended): the last element of the reasoning list of every Analysis
is the recommendation entry appended by rule 5; the bet-size computation
of rule 6 appends no reasoning entry. -/
theorem reasoning_ends_with_recommendation (opp : Opportunity) :
    (analyze_opportunity opp).reasoning.getLast? =
      some (.recommendationIs (analyze_opportunity opp).recommendation) := by
  unfold analyze_opportunity
  simp only []
  rw [List.getLast?_append_cons]
  rfl

/-- Witness for the amended C4 at the concrete opportunity ("eth", 4, 65). -/
theorem reasoning_ends_with_recommendation_witness :
    (analyze_opportunity ⟨"eth", 4, 65⟩).reasoning.getLast? =
      some (.recommendationIs (analyze_opportunity ⟨"eth", 4, 65⟩).recommendation) :=
  reasoning_ends_with_recommendation ⟨"eth", 4, 65⟩

/-- C4 (counterexample to the claim as stated): the opportunities
("m", 30, 80) and ("m", 30, 81) produce identical reasoning lists, ending
in the rule-5 entry "Recommendation: EXECUTE", while their bet sizes
differ (11/150 vs 583/6000) — so the final reasoning entry is rule 5's
recommendation string and no entry describes the Kelly bet size. -/
theorem bet_size_not_in_reasoning :
    (analyze_opportunity ⟨"m", 30, 80⟩).reasoning =
        (analyze_opportunity ⟨"m", 30, 81⟩).reasoning ∧
    (analyze_opportunity ⟨"m", 30, 80⟩).bet_size = 11/150 ∧
    (analyze_opportunity ⟨"m", 30, 81⟩).bet_size = 583/6000 ∧
    (analyze_opportunity ⟨"m", 30, 80⟩).reasoning.getLast? =
      some (.recommendationIs "EXECUTE") := by
  unfold analyze_opportunity
  simp only [rules1to4_eq]
  norm_num [rule1Risk, rule2Risk, rule1Entry, rule2Entries,
    generate_recommendation, knowledge_base, calculate_kelly_bet_size,
    min_def, max_def]

/-- C5: `_check_policy_compliance` returns false exactly when the profit
margin is below the policy minimum (default 3), or the confidence is below
the policy minimum (default 60), or the risk score exceeds the policy
maximum (default 70), or the approved-markets list is non-empty and no
approved string occurs (case-sensitively) in the market text; an empty
approved-markets list restricts nothing. -/
theorem check_policy_false_iff (r : Recommendation) (p : UserPolicy) :
    check_policy_compliance r p = false ↔
      (r.profit_margin < p.min_profit_margin.getD 3 ∨
       r.confidence < p.min_confidence.getD 60 ∨
       r.risk_score > p.max_risk_score.getD 70 ∨
       (p.approved_markets.getD [] ≠ [] ∧
        ∀ m ∈ p.approved_markets.getD [], strContains r.market m = false)) := by
  unfold check_policy_compliance
  split_ifs with h1 h2 h3
  · exact iff_of_true rfl (Or.inl h1)
  · exact iff_of_true rfl (Or.inr (Or.inl h2))
  · exact iff_of_true rfl (Or.inr (Or.inr (Or.inl h3)))
  · dsimp only []
    split_ifs with h4
    · refine iff_of_true rfl (Or.inr (Or.inr (Or.inr ?_)))
      rw [Bool.and_eq_true, Bool.not_eq_true', Bool.not_eq_true',
        List.isEmpty_eq_false, List.any_eq_false] at h4
      exact ⟨h4.1, fun m hm => by simpa using h4.2 m hm⟩
    · refine iff_of_false (by simp) ?_
      rw [Bool.and_eq_true, Bool.not_eq_true', Bool.not_eq_true',
        List.isEmpty_eq_false, List.any_eq_false] at h4
      rintro (h | h | h | ⟨hne, hall⟩)
      · exact h1 h
      · exact h2 h
      · exact h3 h
      · exact h4 ⟨hne, fun m hm => by simpa using hall m hm⟩

/-- Witness for C5: a recommendation with profit margin 1 is rejected
under an all-default policy. -/
theorem check_policy_false_iff_witness :
    check_policy_compliance
      { market := "btc", bet_size := 1/20, profit_margin := 1,
        confidence := 70, risk_score := 50 }
      { bankroll := 1000, max_bet_size := 200, min_bet_size := none,
        min_profit_margin := none, min_confidence := none,
        max_risk_score := none, approved_markets := none } = false :=
  (check_policy_false_iff _ _).mpr (Or.inl (by norm_num))

/-- C9: the policy filter is monotone in min_profit_margin — if a
recommendation passes with threshold m2 it also passes with any smaller
threshold m1, all other policy fields unchanged. -/
theorem compliance_monotone (r : Recommendation) (p : UserPolicy)
    (m1 m2 : ℚ) (hm : m1 ≤ m2)
    (h : check_policy_compliance r { p with min_profit_margin := some m2 } = true) :
    check_policy_compliance r { p with min_profit_margin := some m1 } = true := by
  unfold check_policy_compliance at h ⊢
  simp only [Option.getD_some] at h ⊢
  split_ifs at h ⊢ <;> simp_all
  linarith

/-- Witness for C9 with thresholds 3 ≤ 4 and a recommendation of profit
margin 5 that passes at 4. -/
theorem compliance_monotone_witness :
    check_policy_compliance
      { market := "btc", bet_size := 1/20, profit_margin := 5,
        confidence := 70, risk_score := 50 }
      { bankroll := 1000, max_bet_size := 200, min_bet_size := none,
        min_profit_margin := some 3, min_confidence := none,
        max_risk_score := none, approved_markets := none } = true :=
  compliance_monotone
    { market := "btc", bet_size := 1/20, profit_margin := 5,
      confidence := 70, risk_score := 50 }
    { bankroll := 1000, max_bet_size := 200, min_bet_size := none,
      min_profit_margin := some 3, min_confidence := none,
      max_risk_score := none, approved_markets := none }
    3 4 (by norm_num) (by norm_num [check_policy_compliance])

/-- C8: for a policy-compliant recommendation the dollar bet size is
min(bet_size × bankroll, max_bet_size); when that value is below the
policy minimum (default 10) `execute_trade` returns the fixed failed
TradeExecution with the below-minimum message and no transaction —
independent of the Vincent outcome, so no smaller trade is attempted —
and otherwise the executed record carries exactly that dollar size. -/
theorem execute_trade_sizing (r : Recommendation) (p : UserPolicy)
    (tid : String) (v : Except String (Option String))
    (hc : check_policy_compliance r p = true) :
    (min (r.bet_size * p.bankroll) p.max_bet_size < p.min_bet_size.getD 10 →
      execute_trade r p tid v =
        { trade_id := tid, market := r.market, bet_size := 0,
          expected_profit := 0, tx_hash := none, status := "failed",
          error_message := some "Bet size below minimum threshold" }) ∧
    (¬ min (r.bet_size * p.bankroll) p.max_bet_size < p.min_bet_size.getD 10 →
      ∀ tx, v = .ok tx →
        (execute_trade r p tid v).bet_size =
          min (r.bet_size * p.bankroll) p.max_bet_size) := by
  unfold execute_trade
  simp only [hc, Bool.not_true, Bool.false_eq_true, if_false]
  constructor
  · intro hlt
    rw [if_pos hlt]
  · intro hge tx htx
    rw [if_neg hge, htx]

/-- Witness for C8: a compliant recommendation sized at
min(0.005 × 1000, 200) = 5 < 10 is rejected with the below-minimum
message even though the Vincent call would have succeeded. -/
theorem execute_trade_sizing_witness :
    execute_trade
      { market := "btc", bet_size := 1/200, profit_margin := 5,
        confidence := 70, risk_score := 50 }
      { bankroll := 1000, max_bet_size := 200, min_bet_size := none,
        min_profit_margin := none, min_confidence := none,
        max_risk_score := none, approved_markets := none }
      "trade_1" (.ok (some "0xabc")) =
      { trade_id := "trade_1", market := "btc", bet_size := 0,
        expected_profit := 0, tx_hash := none, status := "failed",
        error_message := some "Bet size below minimum threshold" } :=
  (execute_trade_sizing
    { market := "btc", bet_size := 1/200, profit_margin := 5,
      confidence := 70, risk_score := 50 }
    { bankroll := 1000, max_bet_size := 200, min_bet_size := none,
      min_profit_margin := none, min_confidence := none,
      max_risk_score := none, approved_markets := none }
    "trade_1" (.ok (some "0xabc"))
    (by norm_num [check_policy_compliance])).1 (by norm_num)

/-- C7: on the mock BTC market (odds 75, target 100000) with oracle price
98500 the detector applies its formulas literally: implied_price =
100000 × (1 − 0.75 × 0.9) = 32500 and profit_margin =
(98500 − 32500)/32500 × 100 = 13200/65 ≈ 203.08, an economically
implausible but intended value. -/
theorem detector_formula_literal :
    analyze_market
        { id := "btc-100k-dec31"
          question := "Will Bitcoin reach $100,000 by December 31, 2024?"
          outcome := "YES", odds := 75, volume := 1250000
          target_price := 100000, asset := "BTC" }
        [("BTC", { price := 98500, confidence := 10, publish_time := 0 })] =
      some
        { market := "Will Bitcoin reach $100,000 by December 31, 2024?"
          market_odds := 75, oracle_price := 98500, implied_price := 32500
          profit_margin := 13200/65, confidence := 100 } ∧
    (32500 : ℚ) = 100000 * (1 - 75/100 * (9/10)) ∧
    (13200/65 : ℚ) = (98500 - 32500) / 32500 * 100 ∧
    |(13200/65 : ℚ) - 20308/100| < 1/100 := by
  refine ⟨?_, by norm_num, by norm_num, by rw [abs_sub_lt_iff]; norm_num⟩
  unfold analyze_market calculate_confidence
  norm_num [List.lookup]

end Polytrage
